import Mathlib

/-!
Shallow embedding of the touchpoints-provisioning workflow
(`create_touchpoints.py` and its demo wrapper `run_example.py`).

External effects are made explicit:
* the relational datastore is a `DBState` value threaded through the run;
* whether a datastore call raises `mysql.connector.Error`, and at which
  point the NATS publish fails, are inputs drawn from an `Oracle`;
* the 128 random bits consumed by `uuid.uuid4()` and the string produced
  by `datetime.utcnow().isoformat()` are also `Oracle` inputs;
* the process environment is a partial map from names to strings.

Python truthiness (`if not x`) is modelled explicitly wherever the source
relies on it: on optional strings, on the raw customer-id value returned
by the lookup, and on environment-variable values.
-/

namespace Touchpoints

/-- Values that can sit in the `id` column of `corporate_customers`, as the
Python driver hands them back: the point is that row values carry Python
truthiness (`None`, `0` and `""` are falsy). -/
inductive PyVal where
  | none
  | int (n : Int)
  | str (s : String)
  deriving DecidableEq, Repr

/-- Python truthiness of a row value. -/
def pyTruthy : PyVal → Bool
  | PyVal.none => false
  | PyVal.int n => n != 0
  | PyVal.str s => !s.isEmpty

/-- Python truthiness of `Optional` row value: `None` is falsy, otherwise
the value's own truthiness decides. -/
def optValTruthy : Option PyVal → Bool
  | Option.none => false
  | Option.some v => pyTruthy v

/-- A `datetime` object as far as this workflow observes it: only its
`isoformat()` rendering is ever used. -/
structure PyDatetime where
  isoformat : String
  deriving DecidableEq, Repr

/-- A row of the external `corporate_customers` table. -/
structure CustomerRow where
  id : PyVal
  name : String
  subscription_tier : String
  created_at : Option PyDatetime
  updated_at : Option PyDatetime
  deriving DecidableEq, Repr

/-- A row of the `touchpoints` table, as inserted by this workflow. -/
structure TouchpointRecord where
  id : String
  customer_id : PyVal
  welcome_outreach : Option PyDatetime
  technical_onboarding : Option PyDatetime
  follow_up_call : Option PyDatetime
  feedback_session : Option PyDatetime
  deriving DecidableEq, Repr

/-- The datastore state visible to the workflow. -/
structure DBState where
  customers : List CustomerRow
  touchpoints : List TouchpointRecord
  deriving DecidableEq, Repr

/-- The customer snapshot dict built by `get_customer_details`: `datetime`
columns are rendered to ISO strings, `NULL` stays `None`. -/
structure CustomerSnapshot where
  id : PyVal
  name : String
  subscription_tier : String
  created_at : Option String
  updated_at : Option String
  deriving DecidableEq, Repr

/-- The `touchpoints` sub-mapping of the event payload (all four schedule
keys explicitly present, each mapped to JSON `null` = `Option.none`). -/
structure TouchpointsFields where
  welcome_outreach : Option String
  technical_onboarding : Option String
  follow_up_call : Option String
  feedback_session : Option String
  deriving DecidableEq, Repr

/-- The event payload built in `publish_touchpoints_created_event`. -/
structure EventPayload where
  event_type : String
  timestamp : String
  touchpoints_id : String
  customer : CustomerSnapshot
  touchpoints : TouchpointsFields
  next_actions : List String
  deriving DecidableEq, Repr

/-- A message delivered to the bus: the subject it was published on and
its payload. -/
structure PublishedMsg where
  subject : String
  payload : EventPayload
  deriving DecidableEq, Repr

/-- Everything outside the process that a run can read or change. -/
structure World where
  db : DBState
  published : List PublishedMsg
  deriving DecidableEq, Repr

/-- Where, if anywhere, the NATS stage fails: at `nats.connect`, at
`nc.publish`, or at `nc.close` (after the message is already out). -/
inductive PubOutcome where
  | ok
  | failConnect
  | failPublish
  | failClose
  deriving DecidableEq, Repr

/-- The nondeterministic inputs of one run: which datastore calls raise
`mysql.connector.Error`, how the publish stage fares, the 128 random bits
behind `uuid.uuid4()`, and the `datetime.utcnow().isoformat()` string. -/
structure Oracle where
  lookupErr : Bool
  insertErr : Bool
  detailsErr : Bool
  pubOutcome : PubOutcome
  rand : Nat
  now : String
  deriving DecidableEq, Repr

/-! ### Python `uuid.uuid4()` -/

/-- Lowercase hex character of a nibble, as Python's `uuid.UUID.__str__`
emits. -/
def hexChar (n : Nat) : Char := Nat.digitChar (n % 16)

/-- Nibble `i` (0 = most significant of 32) of the 128 random bits. -/
def nibbleAt (r i : Nat) : Nat := r / 16 ^ (31 - i) % 16

/-- Nibble `i` of the uuid4 integer: `uuid.uuid4` forces nibble 12 (the
version field) to `4` and the top two bits of nibble 16 (the variant
field) to `10`, leaving the other 122 bits random. -/
def uuidNib (r i : Nat) : Nat :=
  if i = 12 then 4
  else if i = 16 then nibbleAt r i % 4 + 8
  else nibbleAt r i

/-- Character list of `str(uuid.uuid4())`: 32 hex digits grouped
8-4-4-4-12 by dashes. -/
def uuid4Chars (r : Nat) : List Char :=
  [hexChar (uuidNib r 0), hexChar (uuidNib r 1), hexChar (uuidNib r 2),
   hexChar (uuidNib r 3), hexChar (uuidNib r 4), hexChar (uuidNib r 5),
   hexChar (uuidNib r 6), hexChar (uuidNib r 7), '-',
   hexChar (uuidNib r 8), hexChar (uuidNib r 9), hexChar (uuidNib r 10),
   hexChar (uuidNib r 11), '-',
   hexChar (uuidNib r 12), hexChar (uuidNib r 13), hexChar (uuidNib r 14),
   hexChar (uuidNib r 15), '-',
   hexChar (uuidNib r 16), hexChar (uuidNib r 17), hexChar (uuidNib r 18),
   hexChar (uuidNib r 19), '-',
   hexChar (uuidNib r 20), hexChar (uuidNib r 21), hexChar (uuidNib r 22),
   hexChar (uuidNib r 23), hexChar (uuidNib r 24), hexChar (uuidNib r 25),
   hexChar (uuidNib r 26), hexChar (uuidNib r 27), hexChar (uuidNib r 28),
   hexChar (uuidNib r 29), hexChar (uuidNib r 30), hexChar (uuidNib r 31)]

/-- The string `str(uuid.uuid4())` built from random bits `r`. -/
def uuid4String (r : Nat) : String := String.mk (uuid4Chars r)

/-! ### The four stages (`TouchpointsCreator` methods) -/

/-- `get_customer_id`: select the first `corporate_customers` row whose
`name` equals the argument; return its raw `id` value, `None` when no row
matches or the datastore raises. -/
def get_customer_id (err : Bool) (db : DBState) (customer_name : String) :
    Option PyVal :=
  if err then Option.none
  else (db.customers.find? (fun c => c.name == customer_name)).map CustomerRow.id

/-- `create_touchpoints_record`: generate `str(uuid.uuid4())`, insert a row
with that id, the customer foreign key and the four schedule columns
`NULL`, and return the new id; on a datastore error return `None` with the
table unchanged. -/
def create_touchpoints_record (err : Bool) (rand : Nat) (db : DBState)
    (customer_id : PyVal) : Option String × DBState :=
  if err then (Option.none, db)
  else
    let touchpoints_id := uuid4String rand
    (Option.some touchpoints_id,
      { db with
        touchpoints := db.touchpoints ++
          [{ id := touchpoints_id, customer_id := customer_id,
             welcome_outreach := Option.none,
             technical_onboarding := Option.none,
             follow_up_call := Option.none,
             feedback_session := Option.none }] })

/-- The snapshot dict built from a customer row: `datetime` columns are
converted through `isoformat()` when truthy (a `datetime` is always
truthy), `NULL` stays `None`. -/
def toSnapshot (c : CustomerRow) : CustomerSnapshot :=
  { id := c.id, name := c.name, subscription_tier := c.subscription_tier,
    created_at := c.created_at.map PyDatetime.isoformat,
    updated_at := c.updated_at.map PyDatetime.isoformat }

/-- `get_customer_details`: re-read the customer row by id and render its
timestamps; `None` when the row is gone or the datastore raises. -/
def get_customer_details (err : Bool) (db : DBState) (customer_id : PyVal) :
    Option CustomerSnapshot :=
  if err then Option.none
  else (db.customers.find? (fun c => c.id == customer_id)).map toSnapshot

/-- The fixed `next_actions` list of the event payload. -/
def nextActions : List String :=
  ["Schedule welcome outreach", "Plan technical onboarding session",
   "Set up follow-up call", "Arrange feedback session"]

/-- The event payload dict of `publish_touchpoints_created_event`. -/
def buildEventPayload (now touchpoints_id : String)
    (customer_details : CustomerSnapshot) : EventPayload :=
  { event_type := "touchpoints-created",
    timestamp := now ++ "Z",
    touchpoints_id := touchpoints_id,
    customer := customer_details,
    touchpoints :=
      { welcome_outreach := Option.none, technical_onboarding := Option.none,
        follow_up_call := Option.none, feedback_session := Option.none },
    next_actions := nextActions }

/-- `publish_touchpoints_created_event`: connect, build the payload,
publish it on the configured subject, close. Any failure is caught and
returned as `false`; a failure at `close` happens after the message is
already on the bus. -/
def publish_touchpoints_created_event (po : PubOutcome) (now subject : String)
    (touchpoints_id : String) (customer_details : CustomerSnapshot) :
    Bool × Option PublishedMsg :=
  match po with
  | PubOutcome.failConnect => (false, Option.none)
  | PubOutcome.failPublish => (false, Option.none)
  | PubOutcome.failClose =>
      (false, Option.some ⟨subject, buildEventPayload now touchpoints_id customer_details⟩)
  | PubOutcome.ok =>
      (true, Option.some ⟨subject, buildEventPayload now touchpoints_id customer_details⟩)

/-! ### Configuration and the overall workflow -/

/-- The configuration a successfully constructed `TouchpointsCreator`
carries (validated fields hold their environment values). -/
structure Config where
  db_host : String
  db_port : Int
  db_name : String
  db_user : String
  db_password : String
  nats_url : String
  nats_subject : String
  nats_user : String
  nats_password : String
  customer_name : String
  deriving DecidableEq, Repr

/-- The stages of the workflow, in the order the source attempts them. -/
inductive Stage where
  | lookup
  | insert
  | fetch
  | publish
  deriving DecidableEq, Repr

/-- What one call of `create_touchpoints_for_customer` produced: its
boolean result, the external world afterwards, and the list of stages it
attempted, in order. -/
structure RunResult where
  success : Bool
  world : World
  trace : List Stage
  deriving DecidableEq, Repr

/-- `create_touchpoints_for_customer`: the four stages in sequence, each
guarded by a Python-truthiness test on the previous stage's result, with
an early `False` return at the first failure. -/
def create_touchpoints_for_customer (o : Oracle) (cfg : Config) (w : World) :
    RunResult :=
  match get_customer_id o.lookupErr w.db cfg.customer_name with
  | Option.none => ⟨false, w, [Stage.lookup]⟩
  | Option.some cid =>
    if !pyTruthy cid then ⟨false, w, [Stage.lookup]⟩
    else
      match create_touchpoints_record o.insertErr o.rand w.db cid with
      | (Option.none, db2) =>
          ⟨false, ⟨db2, w.published⟩, [Stage.lookup, Stage.insert]⟩
      | (Option.some tid, db2) =>
        if tid.isEmpty then
          ⟨false, ⟨db2, w.published⟩, [Stage.lookup, Stage.insert]⟩
        else
          match get_customer_details o.detailsErr db2 cid with
          | Option.none =>
              ⟨false, ⟨db2, w.published⟩, [Stage.lookup, Stage.insert, Stage.fetch]⟩
          | Option.some cd =>
            let pr := publish_touchpoints_created_event o.pubOutcome o.now
              cfg.nats_subject tid cd
            ⟨pr.1, ⟨db2, w.published ++ pr.2.toList⟩,
              [Stage.lookup, Stage.insert, Stage.fetch, Stage.publish]⟩

/-! ### Environment validation and the entry points -/

/-- The process environment: a partial map from variable names to values
(`os.getenv` semantics). -/
abbrev Env := String → Option String

/-- Python truthiness of an `os.getenv` result: unset or empty is falsy. -/
def strTruthy : Option String → Bool
  | Option.none => false
  | Option.some s => !s.isEmpty

/-- The `required_vars` list of `_validate_env_vars`, in source order. -/
def requiredVars : List String :=
  ["DB_HOST", "DB_NAME", "DB_USER", "DB_PASSWORD",
   "NATS_URL", "NATS_USER", "NATS_PASSWORD", "CUSTOMER_NAME"]

/-- The `missing_vars` comprehension of `_validate_env_vars`. -/
def missingVars (env : Env) : List String :=
  requiredVars.filter (fun v => !strTruthy (env v))

/-- Decimal value of an ASCII digit. -/
def digitVal? (c : Char) : Option Nat :=
  if '0' <= c && c <= '9' then Option.some (c.toNat - 48) else Option.none

/-- Value of a nonempty digit run, most significant first. -/
def digitsValAux : List Char → Nat → Option Nat
  | [], acc => Option.some acc
  | c :: cs, acc =>
    match digitVal? c with
    | Option.none => Option.none
    | Option.some d => digitsValAux cs (acc * 10 + d)

/-- Python `int()` on a string: an optional sign followed by at least one
ASCII decimal digit parses; anything else raises `ValueError` (`None`
here). Python's tolerance for surrounding whitespace and interior
underscores is not modelled; on the strings this workflow meets the two
agree. -/
def pyInt? (s : String) : Option Int :=
  match s.data with
  | [] => Option.none
  | '-' :: cs =>
    if cs.isEmpty then Option.none
    else (digitsValAux cs 0).map (fun n => -(n : Int))
  | '+' :: cs =>
    if cs.isEmpty then Option.none
    else (digitsValAux cs 0).map (fun n => (n : Int))
  | cs => (digitsValAux cs 0).map (fun n => (n : Int))

/-- How constructing `TouchpointsCreator` ends: a configured instance, the
`sys.exit(1)` after logging the missing names, or an exception raised
before validation runs (`int(os.getenv('DB_PORT', '3306'))` on a
non-integer string). -/
inductive InitOutcome where
  | ok (cfg : Config)
  | exitMissing (missing : List String)
  | raised
  deriving DecidableEq, Repr

/-- `TouchpointsCreator.__init__`: build `db_config` (parsing `DB_PORT`
first, which can raise), read the NATS and customer options, then
validate; the `ok` fields use the empty string for an absent optional read,
which validation has already ruled out on the required ones. -/
def touchpointsCreatorInit (env : Env) : InitOutcome :=
  match pyInt? ((env "DB_PORT").getD "3306") with
  | Option.none => InitOutcome.raised
  | Option.some port =>
    let missing := missingVars env
    if missing.isEmpty then
      InitOutcome.ok
        { db_host := (env "DB_HOST").getD "",
          db_port := port,
          db_name := (env "DB_NAME").getD "",
          db_user := (env "DB_USER").getD "",
          db_password := (env "DB_PASSWORD").getD "",
          nats_url := (env "NATS_URL").getD "",
          nats_subject := (env "NATS_SUBJECT").getD "touchpoints-created",
          nats_user := (env "NATS_USER").getD "",
          nats_password := (env "NATS_PASSWORD").getD "",
          customer_name := (env "CUSTOMER_NAME").getD "" }
    else InitOutcome.exitMissing missing

/-- Outcome of the `main()` coroutine: the process exit code, the world
afterwards, and the stages the workflow attempted. -/
structure MainResult where
  exitCode : Nat
  world : World
  trace : List Stage
  deriving DecidableEq, Repr

/-- `main()`: construct the creator (a validation `sys.exit(1)` or a raised
exception both end the process with code 1 before any stage runs), then
run the workflow and exit 0 on success, 1 on failure. -/
def mainRun (env : Env) (o : Oracle) (w : World) : MainResult :=
  match touchpointsCreatorInit env with
  | InitOutcome.raised => ⟨1, w, []⟩
  | InitOutcome.exitMissing _ => ⟨1, w, []⟩
  | InitOutcome.ok cfg =>
    let r := create_touchpoints_for_customer o cfg w
    ⟨if r.success then 0 else 1, r.world, r.trace⟩

/-- One `os.environ[k] = v` assignment. -/
def setEnv (env : Env) (k v : String) : Env :=
  fun k2 => if k2 = k then Option.some v else env k2

/-- The environment after the assignments of `run_example`, in source
order (note: it sets `NATS_SERVER`, never `NATS_URL`). -/
def runExampleEnv (env : Env) : Env :=
  setEnv (setEnv (setEnv (setEnv (setEnv (setEnv (setEnv (setEnv (setEnv
    (setEnv env
      "DB_HOST" "localhost")
      "DB_PORT" "33006")
      "DB_NAME" "bassline-boogie")
      "DB_USER" "bassline-boogie-user")
      "DB_PASSWORD" "8Qd8*yZK&zIxS%!s")
      "NATS_SERVER" "nats://localhost:40953")
      "NATS_SUBJECT" "touchpoints-created")
      "NATS_USER" "admin")
      "NATS_PASSWORD" "admin")
      "CUSTOMER_NAME" "Example Tech Solutions"

/-- `run_example` up to the `TouchpointsCreator()` call: mutate the
environment, then construct the creator. -/
def runExampleInit (env : Env) : InitOutcome :=
  touchpointsCreatorInit (runExampleEnv env)


/-- Lowercase hexadecimal digit. -/
def isLowerHexDigit (c : Char) : Bool :=
  ('0' <= c && c <= '9') || ('a' <= c && c <= 'f')

/-- A canonical lowercase version-4 UUID string, straight from the textual
format: 36 characters grouped 8-4-4-4-12 by dashes, hex digits elsewhere,
the version digit 4 opening the third group and an RFC-4122 variant digit
in 8..b opening the fourth. -/
def isVersion4UUIDString (s : String) : Bool :=
  match s.data with
  | u0 :: u1 :: u2 :: u3 :: u4 :: u5 :: u6 :: u7 ::
    u8 :: u9 :: u10 :: u11 :: u12 :: u13 :: u14 :: u15 ::
    u16 :: u17 :: u18 :: u19 :: u20 :: u21 :: u22 :: u23 ::
    u24 :: u25 :: u26 :: u27 :: u28 :: u29 :: u30 :: u31 ::
    u32 :: u33 :: u34 :: u35 :: [] =>
    u8 == '-' && u13 == '-' && u18 == '-' && u23 == '-' &&
    u14 == '4' &&
    (u19 == '8' || u19 == '9' || u19 == 'a' || u19 == 'b') &&
    [u0, u1, u2, u3, u4, u5, u6, u7, u9, u10, u11, u12, u15, u16, u17,
     u20, u21, u22, u24, u25, u26, u27, u28, u29, u30, u31, u32, u33, u34, u35].all
      isLowerHexDigit
  | _ => false

theorem isLowerHexDigit_hexChar (n : Nat) : isLowerHexDigit (hexChar n) = true := by
  have h : forall m, m < 16 -> isLowerHexDigit (Nat.digitChar m) = true := by decide
  exact h (n % 16) (Nat.mod_lt _ (by norm_num))

theorem variant_hexChar (n : Nat) :
    (hexChar (n % 4 + 8) == '8' || hexChar (n % 4 + 8) == '9' ||
     hexChar (n % 4 + 8) == 'a' || hexChar (n % 4 + 8) == 'b') = true := by
  have h : forall m, m < 4 ->
      (hexChar (m + 8) == '8' || hexChar (m + 8) == '9' ||
       hexChar (m + 8) == 'a' || hexChar (m + 8) == 'b') = true := by decide
  exact h (n % 4) (Nat.mod_lt _ (by norm_num))

theorem hexChar_four : hexChar 4 = '4' := rfl

theorem uuid4String_isVersion4 (r : Nat) :
    isVersion4UUIDString (uuid4String r) = true := by
  simp only [isVersion4UUIDString, uuid4String, uuid4Chars, uuidNib, nibbleAt]
  simp [isLowerHexDigit_hexChar, variant_hexChar, hexChar_four]

theorem uuid4String_isEmpty (r : Nat) : (uuid4String r).isEmpty = false := by
  rw [Bool.eq_false_iff]
  intro h
  have h2 : uuid4String r = "" := (String.isEmpty_iff _).mp h
  have h3 : (uuid4String r).data = [] := by rw [h2]
  simp [uuid4String, uuid4Chars] at h3

/-! ### Derived views of a run -/

/-- The row stage 2 inserts when the datastore does not raise. -/
def insertedRecord (rand : Nat) (customer_id : PyVal) : TouchpointRecord :=
  { id := uuid4String rand, customer_id := customer_id,
    welcome_outreach := Option.none, technical_onboarding := Option.none,
    follow_up_call := Option.none, feedback_session := Option.none }

/-- The datastore after a successful stage-2 insert. -/
def dbAfterInsert (rand : Nat) (db : DBState) (customer_id : PyVal) : DBState :=
  { db with touchpoints := db.touchpoints ++ [insertedRecord rand customer_id] }

theorem create_touchpoints_record_ok (rand : Nat) (db : DBState) (cid : PyVal) :
    create_touchpoints_record false rand db cid =
      (Option.some (uuid4String rand), dbAfterInsert rand db cid) := rfl

/-- Stage 1's result value (the raw customer id, if any). -/
def stage1Id (o : Oracle) (cfg : Config) (w : World) : Option PyVal :=
  get_customer_id o.lookupErr w.db cfg.customer_name

/-- Stage 1 succeeds when the lookup result passes the truthiness guard. -/
def stage1Ok (o : Oracle) (cfg : Config) (w : World) : Bool :=
  optValTruthy (stage1Id o cfg w)

/-- Stage 2 succeeds when the insert does not raise (the fresh uuid string
is never empty, so its truthiness guard always passes). -/
def stage2Ok (o : Oracle) : Bool := !o.insertErr

/-- Stage 3 succeeds when the snapshot read on the post-insert datastore
returns a row. -/
def stage3Ok (o : Oracle) (cfg : Config) (w : World) : Bool :=
  match stage1Id o cfg w with
  | Option.none => false
  | Option.some cid =>
    (get_customer_details o.detailsErr (dbAfterInsert o.rand w.db cid) cid).isSome

/-- Stage 4 succeeds when connect, publish and close all go through. -/
def stage4Ok (o : Oracle) : Bool := o.pubOutcome == PubOutcome.ok

/-- Modelled from the spec's control-flow contract: the stages attempted
are the prefix of lookup-insert-fetch-publish up to and including the
first failing stage. -/
def stagesAttempted (o : Oracle) (cfg : Config) (w : World) : List Stage :=
  if !stage1Ok o cfg w then [Stage.lookup]
  else if !stage2Ok o then [Stage.lookup, Stage.insert]
  else if !stage3Ok o cfg w then [Stage.lookup, Stage.insert, Stage.fetch]
  else [Stage.lookup, Stage.insert, Stage.fetch, Stage.publish]

/-! ### Workflow characterization lemmas -/

theorem workflow_lookup_none (o : Oracle) (cfg : Config) (w : World)
    (h : get_customer_id o.lookupErr w.db cfg.customer_name = Option.none) :
    create_touchpoints_for_customer o cfg w = ⟨false, w, [Stage.lookup]⟩ := by
  unfold create_touchpoints_for_customer
  rw [h]

theorem workflow_lookup_falsy (o : Oracle) (cfg : Config) (w : World) (cid : PyVal)
    (h : get_customer_id o.lookupErr w.db cfg.customer_name = Option.some cid)
    (hf : pyTruthy cid = false) :
    create_touchpoints_for_customer o cfg w = ⟨false, w, [Stage.lookup]⟩ := by
  unfold create_touchpoints_for_customer
  rw [h]
  simp [hf]

theorem workflow_insert_err (o : Oracle) (cfg : Config) (w : World) (cid : PyVal)
    (h : get_customer_id o.lookupErr w.db cfg.customer_name = Option.some cid)
    (ht : pyTruthy cid = true)
    (he : o.insertErr = true) :
    create_touchpoints_for_customer o cfg w =
      ⟨false, w, [Stage.lookup, Stage.insert]⟩ := by
  unfold create_touchpoints_for_customer
  rw [h]
  simp [ht, create_touchpoints_record, he]

theorem workflow_details_none (o : Oracle) (cfg : Config) (w : World) (cid : PyVal)
    (h : get_customer_id o.lookupErr w.db cfg.customer_name = Option.some cid)
    (ht : pyTruthy cid = true)
    (he : o.insertErr = false)
    (hd : get_customer_details o.detailsErr (dbAfterInsert o.rand w.db cid) cid =
      Option.none) :
    create_touchpoints_for_customer o cfg w =
      ⟨false, ⟨dbAfterInsert o.rand w.db cid, w.published⟩,
        [Stage.lookup, Stage.insert, Stage.fetch]⟩ := by
  unfold create_touchpoints_for_customer
  rw [h]
  simp only [ht, if_pos, Bool.not_true, Bool.false_eq_true, if_false, he,
    create_touchpoints_record_ok, uuid4String_isEmpty, hd]

theorem workflow_publish_reached (o : Oracle) (cfg : Config) (w : World)
    (cid : PyVal) (cd : CustomerSnapshot)
    (h : get_customer_id o.lookupErr w.db cfg.customer_name = Option.some cid)
    (ht : pyTruthy cid = true)
    (he : o.insertErr = false)
    (hd : get_customer_details o.detailsErr (dbAfterInsert o.rand w.db cid) cid =
      Option.some cd) :
    create_touchpoints_for_customer o cfg w =
      ⟨(publish_touchpoints_created_event o.pubOutcome o.now cfg.nats_subject
          (uuid4String o.rand) cd).1,
        ⟨dbAfterInsert o.rand w.db cid,
          w.published ++ (publish_touchpoints_created_event o.pubOutcome o.now
            cfg.nats_subject (uuid4String o.rand) cd).2.toList⟩,
        [Stage.lookup, Stage.insert, Stage.fetch, Stage.publish]⟩ := by
  unfold create_touchpoints_for_customer
  rw [h]
  simp only [ht, if_pos, Bool.not_true, Bool.false_eq_true, if_false, he,
    create_touchpoints_record_ok, uuid4String_isEmpty, hd]

/-- An initialized creator passed validation: no required name was missing. -/
theorem init_ok_no_missing (env : Env) (cfg : Config)
    (h : touchpointsCreatorInit env = InitOutcome.ok cfg) :
    missingVars env = [] := by
  unfold touchpointsCreatorInit at h
  by_cases h3 : (missingVars env).isEmpty
  · exact List.isEmpty_iff.mp h3
  · rcases h2 : pyInt? ((env "DB_PORT").getD "3306") with _ | port <;> rw [h2] at h
    · simp at h
    · rw [Bool.not_eq_true] at h3
      simp [h3] at h

theorem publish_fst (po : PubOutcome) (now subject tid : String)
    (cd : CustomerSnapshot) :
    (publish_touchpoints_created_event po now subject tid cd).1 =
      (po == PubOutcome.ok) := by
  cases po <;> rfl

/-- The workflow attempts exactly the stages up to its first failure, and
succeeds exactly when all four stages succeed. -/
theorem workflow_trace_success (o : Oracle) (cfg : Config) (w : World) :
    (create_touchpoints_for_customer o cfg w).trace = stagesAttempted o cfg w ∧
    (create_touchpoints_for_customer o cfg w).success =
      (stage1Ok o cfg w && stage2Ok o && stage3Ok o cfg w && stage4Ok o) := by
  rcases h1 : get_customer_id o.lookupErr w.db cfg.customer_name with _ | cid
  · rw [workflow_lookup_none o cfg w h1]
    simp [stagesAttempted, stage1Ok, stage1Id, h1, optValTruthy]
  · by_cases ht : pyTruthy cid = true
    · by_cases he : o.insertErr = true
      · rw [workflow_insert_err o cfg w cid h1 ht he]
        simp [stagesAttempted, stage1Ok, stage1Id, h1, optValTruthy, ht,
          stage2Ok, he]
      · rw [Bool.not_eq_true] at he
        rcases hd : get_customer_details o.detailsErr (dbAfterInsert o.rand w.db cid) cid
          with _ | cd
        · rw [workflow_details_none o cfg w cid h1 ht he hd]
          simp [stagesAttempted, stage1Ok, stage1Id, h1, optValTruthy, ht,
            stage2Ok, he, stage3Ok, hd]
        · rw [workflow_publish_reached o cfg w cid cd h1 ht he hd]
          simp [stagesAttempted, stage1Ok, stage1Id, h1, optValTruthy, ht,
            stage2Ok, he, stage3Ok, hd, stage4Ok, publish_fst]
    · rw [Bool.not_eq_true] at ht
      rw [workflow_lookup_falsy o cfg w cid h1 ht]
      simp [stagesAttempted, stage1Ok, stage1Id, h1, optValTruthy, ht]

/-! ### Claims -/

/-- C3: the four stages run in strict sequence lookup, insert, fetch,
publish; the trace is the prefix of that order up to and including the
first failing stage (so a failing stage ends the run with `false` and no
later stage executes), the run succeeds exactly when all four stages
succeed, and no stage is ever attempted twice. -/
theorem stages_run_in_strict_sequence (o : Oracle) (cfg : Config) (w : World) :
    (create_touchpoints_for_customer o cfg w).trace = stagesAttempted o cfg w ∧
    ((create_touchpoints_for_customer o cfg w).success = true ↔
      (stage1Ok o cfg w = true ∧ stage2Ok o = true ∧
       stage3Ok o cfg w = true ∧ stage4Ok o = true)) ∧
    (create_touchpoints_for_customer o cfg w).trace.Nodup := by
  obtain ⟨htr, hsucc⟩ := workflow_trace_success o cfg w
  refine ⟨htr, ?_, ?_⟩
  · rw [hsucc]
    simp [Bool.and_eq_true, and_assoc]
  · rw [htr]
    unfold stagesAttempted
    split_ifs <;> decide

/-- C7: the process exit code of `main()` is 0 exactly when construction
validated and all four stages succeeded, and is 1 in every other case
(validation failure, raised construction exception, or any stage
failure). -/
theorem main_exit_codes (env : Env) (o : Oracle) (w : World) :
    ((mainRun env o w).exitCode = 0 ↔
      ∃ cfg, touchpointsCreatorInit env = InitOutcome.ok cfg ∧
        (stage1Ok o cfg w && stage2Ok o && stage3Ok o cfg w && stage4Ok o) = true) ∧
    ((mainRun env o w).exitCode = 0 ∨ (mainRun env o w).exitCode = 1) := by
  rcases hinit : touchpointsCreatorInit env with cfg | missing | _ <;>
    unfold mainRun <;> rw [hinit]
  · obtain ⟨-, hsucc⟩ := workflow_trace_success o cfg w
    constructor
    · by_cases hs : (create_touchpoints_for_customer o cfg w).success = true
      · simp only [hs, if_pos]
        simp only [true_iff]
        exact ⟨cfg, rfl, by rw [← hsucc]; exact hs⟩
      · rw [Bool.not_eq_true] at hs
        simp only [hs, Bool.false_eq_true, if_false]
        constructor
        · intro h; exact absurd h (by norm_num)
        · rintro ⟨cfg2, hcfg2, hall⟩
          injection hcfg2 with hcfg2
          rw [← hcfg2] at hall
          rw [hall] at hsucc
          rw [hsucc] at hs
          exact absurd hs (by norm_num)
    · by_cases hs : (create_touchpoints_for_customer o cfg w).success = true <;>
        simp [hs]
  · simp
  · simp

/-- C1: when stage 1 yields no customer identifier — the name matches no
row, or the lookup raises a datastore error — the workflow returns failure
with the world unchanged (no touchpoints row, no published message) and
never attempts the insert or the publish. -/
theorem lookup_failure_creates_nothing (o : Oracle) (cfg : Config) (w : World)
    (h : o.lookupErr = true ∨
      w.db.customers.find? (fun c => c.name == cfg.customer_name) = Option.none) :
    (create_touchpoints_for_customer o cfg w).success = false ∧
    (create_touchpoints_for_customer o cfg w).world = w ∧
    Stage.insert ∉ (create_touchpoints_for_customer o cfg w).trace ∧
    Stage.publish ∉ (create_touchpoints_for_customer o cfg w).trace := by
  have hnone : get_customer_id o.lookupErr w.db cfg.customer_name = Option.none := by
    rcases h with h | h
    · simp [get_customer_id, h]
    · simp [get_customer_id, h]
  rw [workflow_lookup_none o cfg w hnone]
  exact ⟨rfl, rfl, by simp, by simp⟩

/-- C10: when a row matches the name but its id is falsy (0, empty string,
or NULL), the truthiness guard treats resolution as failed: the run aborts
with the world unchanged, before any insert. -/
theorem falsy_customer_id_aborts (o : Oracle) (cfg : Config) (w : World)
    (c : CustomerRow)
    (herr : o.lookupErr = false)
    (hfind : w.db.customers.find? (fun c2 => c2.name == cfg.customer_name) =
      Option.some c)
    (hfalsy : pyTruthy c.id = false) :
    (create_touchpoints_for_customer o cfg w).success = false ∧
    (create_touchpoints_for_customer o cfg w).world = w ∧
    (create_touchpoints_for_customer o cfg w).trace = [Stage.lookup] := by
  have hsome : get_customer_id o.lookupErr w.db cfg.customer_name =
      Option.some c.id := by
    simp [get_customer_id, herr, hfind]
  rw [workflow_lookup_falsy o cfg w c.id hsome hfalsy]
  exact ⟨rfl, rfl, rfl⟩

/-- C2: when the insert succeeds but the publish fails, the run reports
overall failure while the touchpoints table still holds exactly the old
rows plus the one inserted record — no compensating delete, no other
touchpoints write. -/
theorem publish_failure_keeps_record (o : Oracle) (cfg : Config) (w : World)
    (cid : PyVal) (cd : CustomerSnapshot)
    (h1 : get_customer_id o.lookupErr w.db cfg.customer_name = Option.some cid)
    (ht : pyTruthy cid = true)
    (he : o.insertErr = false)
    (hd : get_customer_details o.detailsErr (dbAfterInsert o.rand w.db cid) cid =
      Option.some cd)
    (hp : o.pubOutcome ≠ PubOutcome.ok) :
    (create_touchpoints_for_customer o cfg w).success = false ∧
    (create_touchpoints_for_customer o cfg w).world.db.touchpoints =
      w.db.touchpoints ++ [insertedRecord o.rand cid] := by
  rw [workflow_publish_reached o cfg w cid cd h1 ht he hd]
  constructor
  · rw [publish_fst]
    simp [hp]
  · rfl

/-- C6: a successful stage-2 insert appends exactly one record: its id is
the freshly generated canonical version-4 UUID string, its foreign key is
the resolved customer id, its four schedule fields are all NULL, and the
customers table is untouched. -/
theorem insert_shape (err : Bool) (rand : Nat) (db : DBState) (cid : PyVal)
    (h : err = false) :
    ∃ rec : TouchpointRecord,
      (create_touchpoints_record err rand db cid).1 = Option.some rec.id ∧
      (create_touchpoints_record err rand db cid).2.touchpoints =
        db.touchpoints ++ [rec] ∧
      isVersion4UUIDString rec.id = true ∧
      rec.customer_id = cid ∧
      rec.welcome_outreach = Option.none ∧
      rec.technical_onboarding = Option.none ∧
      rec.follow_up_call = Option.none ∧
      rec.feedback_session = Option.none ∧
      (create_touchpoints_record err rand db cid).2.customers = db.customers := by
  subst h
  exact ⟨insertedRecord rand cid, rfl, rfl, uuid4String_isVersion4 rand,
    rfl, rfl, rfl, rfl, rfl, rfl⟩

/-- C5: every successful run publishes exactly one message on the
configured subject: its event_type is the constant "touchpoints-created",
its timestamp is the utcnow ISO string with "Z" appended, its
touchpoints_id is the id of the record stage 2 appended to the touchpoints
table, its customer field is the stage-3 snapshot, the four schedule keys
of its touchpoints mapping are all null, and its next_actions is the fixed
ordered four-entry list. -/
theorem success_event_shape (o : Oracle) (cfg : Config) (w : World)
    (h : (create_touchpoints_for_customer o cfg w).success = true) :
    ∃ (cid : PyVal) (p : EventPayload),
      (create_touchpoints_for_customer o cfg w).world.published =
        w.published ++ [⟨cfg.nats_subject, p⟩] ∧
      (create_touchpoints_for_customer o cfg w).world.db.touchpoints =
        w.db.touchpoints ++ [insertedRecord o.rand cid] ∧
      p.event_type = "touchpoints-created" ∧
      p.timestamp = o.now ++ "Z" ∧
      p.touchpoints_id = (insertedRecord o.rand cid).id ∧
      Option.some p.customer =
        get_customer_details o.detailsErr (dbAfterInsert o.rand w.db cid) cid ∧
      p.touchpoints.welcome_outreach = Option.none ∧
      p.touchpoints.technical_onboarding = Option.none ∧
      p.touchpoints.follow_up_call = Option.none ∧
      p.touchpoints.feedback_session = Option.none ∧
      p.next_actions = ["Schedule welcome outreach",
        "Plan technical onboarding session", "Set up follow-up call",
        "Arrange feedback session"] := by
  rcases h1 : get_customer_id o.lookupErr w.db cfg.customer_name with _ | cid
  · rw [workflow_lookup_none o cfg w h1] at h
    exact absurd h (by simp)
  · by_cases ht : pyTruthy cid = true
    · by_cases he : o.insertErr = true
      · rw [workflow_insert_err o cfg w cid h1 ht he] at h
        exact absurd h (by simp)
      · rw [Bool.not_eq_true] at he
        rcases hd : get_customer_details o.detailsErr (dbAfterInsert o.rand w.db cid) cid
          with _ | cd
        · rw [workflow_details_none o cfg w cid h1 ht he hd] at h
          exact absurd h (by simp)
        · have hpo : o.pubOutcome = PubOutcome.ok := by
            rw [workflow_publish_reached o cfg w cid cd h1 ht he hd] at h
            rw [publish_fst] at h
            exact eq_of_beq h
          refine ⟨cid, buildEventPayload o.now (uuid4String o.rand) cd,
            ?_, ?_, rfl, rfl, rfl, ?_, rfl, rfl, rfl, rfl, rfl⟩
          · rw [workflow_publish_reached o cfg w cid cd h1 ht he hd, hpo]
            rfl
          · rw [workflow_publish_reached o cfg w cid cd h1 ht he hd]
            rfl
          · rw [hd]
            rfl
    · rw [Bool.not_eq_true] at ht
      rw [workflow_lookup_falsy o cfg w cid h1 ht] at h
      exact absurd h (by simp)

/-- C4 (amended): when at least one required option is missing and the
DB_PORT value (default "3306") parses as an integer, construction stops
with exit code 1 and logs exactly the missing names — the required names
whose value is unset or empty — before any stage or connection is
attempted; when DB_PORT is set to a non-integer string, int() raises
before validation, so the process still exits 1 but without the
missing-names listing. -/
theorem missing_env_vars_exit (env : Env) (o : Oracle) (w : World)
    (hport : (pyInt? ((env "DB_PORT").getD "3306")).isSome = true)
    (hmiss : missingVars env ≠ []) :
    touchpointsCreatorInit env = InitOutcome.exitMissing (missingVars env) ∧
    (∀ v, v ∈ missingVars env ↔ (v ∈ requiredVars ∧ strTruthy (env v) = false)) ∧
    mainRun env o w = ⟨1, w, []⟩ := by
  have hinit : touchpointsCreatorInit env =
      InitOutcome.exitMissing (missingVars env) := by
    unfold touchpointsCreatorInit
    rcases h2 : pyInt? ((env "DB_PORT").getD "3306") with _ | port
    · rw [h2] at hport
      exact absurd hport (by simp)
    · simp [List.isEmpty_iff, hmiss]
  refine ⟨hinit, ?_, ?_⟩
  · intro v
    simp [missingVars, List.mem_filter, Bool.not_eq_true']
  · unfold mainRun
    rw [hinit]

/-- C8: the wrapper sets the bus URL under NATS_SERVER while the workflow
reads NATS_URL, so whenever NATS_URL is absent from the ambient
environment, constructing the creator inside run_example fails validation
with exactly NATS_URL reported missing, regardless of the NATS_SERVER
value the wrapper set. -/
theorem example_wrapper_nats_url_mismatch (env : Env)
    (h : env "NATS_URL" = Option.none) :
    runExampleEnv env "NATS_SERVER" = Option.some "nats://localhost:40953" ∧
    runExampleEnv env "NATS_URL" = env "NATS_URL" ∧
    runExampleInit env = InitOutcome.exitMissing ["NATS_URL"] := by
  refine ⟨rfl, rfl, ?_⟩
  have hmiss : missingVars (runExampleEnv env) = ["NATS_URL"] := by
    have hurl : (!strTruthy (runExampleEnv env "NATS_URL")) = true := by
      have hpass : runExampleEnv env "NATS_URL" = env "NATS_URL" := rfl
      rw [hpass, h]
      rfl
    simp [missingVars, requiredVars, List.filter, hurl,
      show (!strTruthy (runExampleEnv env "DB_HOST")) = false from rfl,
      show (!strTruthy (runExampleEnv env "DB_NAME")) = false from rfl,
      show (!strTruthy (runExampleEnv env "DB_USER")) = false from rfl,
      show (!strTruthy (runExampleEnv env "DB_PASSWORD")) = false from rfl,
      show (!strTruthy (runExampleEnv env "NATS_USER")) = false from rfl,
      show (!strTruthy (runExampleEnv env "NATS_PASSWORD")) = false from rfl,
      show (!strTruthy (runExampleEnv env "CUSTOMER_NAME")) = false from rfl]
  unfold runExampleInit touchpointsCreatorInit
  have hport : pyInt? ((runExampleEnv env "DB_PORT").getD "3306") =
    Option.some 33006 := rfl
  rw [hport, hmiss]
  rfl

/-- C9: a required option that is set but equal to the empty string is
treated exactly like an absent one: truthiness validation lists it among
the missing names and the process exits with code 1. -/
theorem empty_string_env_var_missing (env : Env) (o : Oracle) (w : World)
    (v : String) (hv : v ∈ requiredVars) (h : env v = Option.some "") :
    v ∈ missingVars env ∧ (mainRun env o w).exitCode = 1 := by
  have hmem : v ∈ missingVars env := by
    unfold missingVars
    refine List.mem_filter.mpr ⟨hv, ?_⟩
    rw [h]
    rfl
  refine ⟨hmem, ?_⟩
  rcases hinit : touchpointsCreatorInit env with cfg | m | _
  · have h0 := init_ok_no_missing env cfg hinit
    rw [h0] at hmem
    exact absurd hmem (List.not_mem_nil v)
  · unfold mainRun
    rw [hinit]
  · unfold mainRun
    rw [hinit]

/-! ### Concrete fixtures -/

/-- A run with no external failures, randomness 0 and a fixed clock. -/
def goodOracle : Oracle :=
  { lookupErr := false, insertErr := false, detailsErr := false,
    pubOutcome := PubOutcome.ok, rand := 0, now := "2024-06-01T12:00:00" }

/-- A run whose stage-1 lookup raises a datastore error. -/
def lookupErrOracle : Oracle := { goodOracle with lookupErr := true }

/-- A run whose NATS connect fails. -/
def pubFailOracle : Oracle := { goodOracle with pubOutcome := PubOutcome.failConnect }

/-- A fixture customer row. -/
def sampleCustomer : CustomerRow :=
  { id := PyVal.str "cust-1", name := "Example Tech Solutions",
    subscription_tier := "premium",
    created_at := Option.some ⟨"2024-01-01T00:00:00"⟩,
    updated_at := Option.some ⟨"2024-01-02T00:00:00"⟩ }

/-- A world holding only the fixture customer. -/
def sampleWorld : World := ⟨⟨[sampleCustomer], []⟩, []⟩

/-- The fixture customer with a falsy (zero) id. -/
def zeroIdCustomer : CustomerRow := { sampleCustomer with id := PyVal.int 0 }

/-- A world holding only the zero-id customer. -/
def zeroIdWorld : World := ⟨⟨[zeroIdCustomer], []⟩, []⟩

/-- A validated configuration targeting the fixture customer. -/
def sampleConfig : Config :=
  { db_host := "localhost", db_port := 3306, db_name := "crm",
    db_user := "user", db_password := "pw",
    nats_url := "nats://localhost:4222", nats_subject := "touchpoints-created",
    nats_user := "admin", nats_password := "admin",
    customer_name := "Example Tech Solutions" }

/-- A world with nothing in it. -/
def emptyWorld : World := ⟨⟨[], []⟩, []⟩

/-- An environment with nothing set. -/
def emptyEnv : Env := fun _ => Option.none

/-- An environment where only DB_PORT is set, to a non-integer string. -/
def badPortEnv : Env :=
  fun k => if k = "DB_PORT" then Option.some "abc" else Option.none

/-- An environment where DB_HOST is set to the empty string and nothing
else is set. -/
def emptyValueEnv : Env :=
  fun k => if k = "DB_HOST" then Option.some "" else Option.none

/-- C4 counterexample: DB_HOST (among others) is missing, yet because
DB_PORT is set to a non-integer string, construction raises at int()
before validation: the process exits 1 but the missing-names listing is
never produced. -/
theorem missing_env_listing_counterexample :
    "DB_HOST" ∈ requiredVars ∧
    strTruthy (badPortEnv "DB_HOST") = false ∧
    touchpointsCreatorInit badPortEnv = InitOutcome.raised ∧
    touchpointsCreatorInit badPortEnv ≠
      InitOutcome.exitMissing (missingVars badPortEnv) ∧
    (mainRun badPortEnv goodOracle emptyWorld).exitCode = 1 := by
  refine ⟨by decide, rfl, rfl, by decide, rfl⟩

/-! ### Witnesses -/

theorem lookup_failure_creates_nothing_witness :
    (create_touchpoints_for_customer lookupErrOracle sampleConfig sampleWorld).success = false ∧
    (create_touchpoints_for_customer lookupErrOracle sampleConfig sampleWorld).world = sampleWorld ∧
    Stage.insert ∉ (create_touchpoints_for_customer lookupErrOracle sampleConfig sampleWorld).trace ∧
    Stage.publish ∉ (create_touchpoints_for_customer lookupErrOracle sampleConfig sampleWorld).trace :=
  lookup_failure_creates_nothing lookupErrOracle sampleConfig sampleWorld (Or.inl rfl)

theorem falsy_customer_id_aborts_witness :
    (create_touchpoints_for_customer goodOracle sampleConfig zeroIdWorld).success = false ∧
    (create_touchpoints_for_customer goodOracle sampleConfig zeroIdWorld).world = zeroIdWorld ∧
    (create_touchpoints_for_customer goodOracle sampleConfig zeroIdWorld).trace = [Stage.lookup] :=
  falsy_customer_id_aborts goodOracle sampleConfig zeroIdWorld zeroIdCustomer
    rfl rfl (by decide)

theorem publish_failure_keeps_record_witness :
    (create_touchpoints_for_customer pubFailOracle sampleConfig sampleWorld).success = false ∧
    (create_touchpoints_for_customer pubFailOracle sampleConfig sampleWorld).world.db.touchpoints =
      sampleWorld.db.touchpoints ++ [insertedRecord pubFailOracle.rand (PyVal.str "cust-1")] :=
  publish_failure_keeps_record pubFailOracle sampleConfig sampleWorld
    (PyVal.str "cust-1") (toSnapshot sampleCustomer) rfl rfl rfl rfl (by decide)

theorem insert_shape_witness :
    ∃ rec : TouchpointRecord,
      (create_touchpoints_record false 0 sampleWorld.db (PyVal.str "cust-1")).1 =
        Option.some rec.id ∧
      (create_touchpoints_record false 0 sampleWorld.db (PyVal.str "cust-1")).2.touchpoints =
        sampleWorld.db.touchpoints ++ [rec] ∧
      isVersion4UUIDString rec.id = true ∧
      rec.customer_id = PyVal.str "cust-1" ∧
      rec.welcome_outreach = Option.none ∧
      rec.technical_onboarding = Option.none ∧
      rec.follow_up_call = Option.none ∧
      rec.feedback_session = Option.none ∧
      (create_touchpoints_record false 0 sampleWorld.db (PyVal.str "cust-1")).2.customers =
        sampleWorld.db.customers :=
  insert_shape false 0 sampleWorld.db (PyVal.str "cust-1") rfl

theorem success_event_shape_witness :
    ∃ (cid : PyVal) (p : EventPayload),
      (create_touchpoints_for_customer goodOracle sampleConfig sampleWorld).world.published =
        sampleWorld.published ++ [⟨sampleConfig.nats_subject, p⟩] ∧
      (create_touchpoints_for_customer goodOracle sampleConfig sampleWorld).world.db.touchpoints =
        sampleWorld.db.touchpoints ++ [insertedRecord goodOracle.rand cid] ∧
      p.event_type = "touchpoints-created" ∧
      p.timestamp = goodOracle.now ++ "Z" ∧
      p.touchpoints_id = (insertedRecord goodOracle.rand cid).id ∧
      Option.some p.customer =
        get_customer_details goodOracle.detailsErr
          (dbAfterInsert goodOracle.rand sampleWorld.db cid) cid ∧
      p.touchpoints.welcome_outreach = Option.none ∧
      p.touchpoints.technical_onboarding = Option.none ∧
      p.touchpoints.follow_up_call = Option.none ∧
      p.touchpoints.feedback_session = Option.none ∧
      p.next_actions = ["Schedule welcome outreach",
        "Plan technical onboarding session", "Set up follow-up call",
        "Arrange feedback session"] :=
  success_event_shape goodOracle sampleConfig sampleWorld (by decide)

theorem missing_env_vars_exit_witness :
    touchpointsCreatorInit emptyEnv = InitOutcome.exitMissing (missingVars emptyEnv) ∧
    (∀ v, v ∈ missingVars emptyEnv ↔
      (v ∈ requiredVars ∧ strTruthy (emptyEnv v) = false)) ∧
    mainRun emptyEnv goodOracle emptyWorld = ⟨1, emptyWorld, []⟩ :=
  missing_env_vars_exit emptyEnv goodOracle emptyWorld (by decide) (by decide)

theorem example_wrapper_nats_url_mismatch_witness :
    runExampleEnv emptyEnv "NATS_SERVER" = Option.some "nats://localhost:40953" ∧
    runExampleEnv emptyEnv "NATS_URL" = emptyEnv "NATS_URL" ∧
    runExampleInit emptyEnv = InitOutcome.exitMissing ["NATS_URL"] :=
  example_wrapper_nats_url_mismatch emptyEnv rfl

theorem empty_string_env_var_missing_witness :
    "DB_HOST" ∈ missingVars emptyValueEnv ∧
    (mainRun emptyValueEnv goodOracle emptyWorld).exitCode = 1 :=
  empty_string_env_var_missing emptyValueEnv goodOracle emptyWorld "DB_HOST"
    (by decide) rfl

end Touchpoints
